import Mathlib

/-!
# Verification of the export-data utility

Shallow embedding of the export pipeline of `sanity-export-data`
(`src/ExportData.tsx`): query construction (`buildExportQuery`),
the recursive relation-expansion fragment (`buildReferenceExpansion`),
tabular conversion (`convertToCSV`), and the orchestration of a single
export run (`handleExport`), with the fetch and download capabilities
injected as explicit parameters.

JavaScript string primitives used by the source (`trim`, `split(',')`,
`includes(',')`, `replace(/"/g,'""')`) are modelled over `String.data`
as `List Char` functions so that their behaviour is fully explicit.
-/

/-! ## JavaScript string primitives -/

/-- JS `String.prototype.trim`: drop whitespace from both ends. -/
def trimChars (l : List Char) : List Char :=
  ((l.dropWhile Char.isWhitespace).reverse.dropWhile Char.isWhitespace).reverse

/-- JS `s.trim()`. -/
def jsTrim (s : String) : String := String.mk (trimChars s.data)

/-- JS `s.split(',')` on the character list: `"" ↦ [""]`, `"a,b" ↦ ["a","b"]`. -/
def splitCommaAux : List Char → List Char → List (List Char)
  | [], acc => [acc.reverse]
  | c :: rest, acc =>
    if c = ',' then acc.reverse :: splitCommaAux rest [] else splitCommaAux rest (c :: acc)

/-- JS `s.split(',')`. -/
def jsSplitComma (s : String) : List String := (splitCommaAux s.data []).map String.mk

/-- JS `s.includes(',')` (single-character needle). -/
def jsIncludesComma (s : String) : Bool := s.data.contains ','

/-- JS `s.replace(/"/g, '""')`: double every double-quote character. -/
def jsDoubleQuotes (s : String) : String :=
  String.mk (s.data.flatMap (fun c => if c = '"' then ['"', '"'] else [c]))

/-- Substring test used to state (counter)examples about built queries. -/
def listContainsSub (pat : List Char) : List Char → Bool
  | [] => pat.isPrefixOf ([] : List Char)
  | c :: rest => pat.isPrefixOf (c :: rest) || listContainsSub pat rest

/-- `strContainsSub s pat = true` iff `pat` occurs as a substring of `s`. -/
def strContainsSub (s pat : String) : Bool := listContainsSub pat.data s.data

/-! ## Document values

JSON-like values held in a fetched document's fields. JS `typeof v` is
`'object'` exactly for `null`, arrays and plain objects; the source tests
`typeof doc[key] !== 'object' || doc[key] === null`. -/

/-- A JSON-like field value of a fetched document. -/
inductive JValue where
  | null
  | str (s : String)
  | num (n : Int)
  | bool (b : Bool)
  | arr (elems : List JValue)
  | obj (fields : List (String × JValue))

/-- A fetched document: ordered field map (JS object key order), keys distinct. -/
abbrev Doc := List (String × JValue)

/-- JS `doc[key]`: `none` models `undefined`. -/
def docGet (doc : Doc) (key : String) : Option JValue :=
  (doc.find? (fun kv => kv.1 == key)).map (fun kv => kv.2)

/-- JS `typeof v === 'object'` (true for `null`, arrays and objects). -/
def typeofIsObject : JValue → Bool
  | .null => true
  | .arr _ => true
  | .obj _ => true
  | _ => false

/-- Model of `JSON.stringify` (no indentation argument). Control-character
escapes beyond `"` and `\` are not modelled; no claim depends on them. -/
def jsonEscapeChar (c : Char) : List Char :=
  if c = '"' then ['\\', '"'] else if c = '\\' then ['\\', '\\'] else [c]

/-- `JSON.stringify` of a string value: quoted with escapes. -/
def jsonStringifyStr (s : String) : String :=
  String.mk ('"' :: (s.data.flatMap jsonEscapeChar ++ ['"']))

mutual

/-- `JSON.stringify(v)` for a single value. -/
def jsonStringify : JValue → String
  | .null => "null"
  | .str s => jsonStringifyStr s
  | .num n => toString n
  | .bool true => "true"
  | .bool false => "false"
  | .arr elems => "[" ++ jsonStringifyList elems ++ "]"
  | .obj fields => "\x7b" ++ jsonStringifyFields fields ++ "\x7d"

/-- Array elements joined by commas. -/
def jsonStringifyList : List JValue → String
  | [] => ""
  | [v] => jsonStringify v
  | v :: rest => jsonStringify v ++ "," ++ jsonStringifyList rest

/-- Object fields `"k":v` joined by commas. -/
def jsonStringifyFields : List (String × JValue) → String
  | [] => ""
  | [kv] => jsonStringifyStr kv.1 ++ ":" ++ jsonStringify kv.2
  | kv :: rest =>
    jsonStringifyStr kv.1 ++ ":" ++ jsonStringify kv.2 ++ "," ++ jsonStringifyFields rest

end

/-- `JSON.stringify(documents, null, 2)` modelled without the indentation
whitespace (display-only; no claim inspects the structured output). -/
def jsonStringifyDocs (docs : List Doc) : String :=
  jsonStringify (.arr (docs.map JValue.obj))

/-- JS `String(value)` for the scalar values that reach it in `convertToCSV`. -/
def jsToString : JValue → String
  | .null => "null"
  | .str s => s
  | .num n => toString n
  | .bool true => "true"
  | .bool false => "false"
  | .arr elems => jsonStringify (.arr elems)
  | .obj fields => jsonStringify (.obj fields)

/-! ## `convertToCSV` (source lines 169–199) -/

/-- The header-inclusion test of `convertToCSV`:
`typeof doc[key] !== 'object' || doc[key] === null`.  In JS, `typeof` is
`'object'` for `null`, arrays and objects, so `null` passes (second disjunct)
while arrays and objects do not. -/
def headerIncludable (v : JValue) : Bool :=
  !(typeofIsObject v) || (v matches .null)

/-- One pass of header collection over one document: a key is added once,
in first-seen order, when its value passes `headerIncludable` (JS `Set`
keeps insertion order). -/
def addKeys (acc : List String) (doc : Doc) : List String :=
  doc.foldl
    (fun acc kv => if headerIncludable kv.2 && !(acc.contains kv.1) then acc ++ [kv.1] else acc)
    acc

/-- `Array.from(allKeys)` after the double `forEach` of lines 173–180. -/
def csvHeaders (data : List Doc) : List String :=
  data.foldl addKeys []

/-- The cell-rendering closure of lines 186–194, with `none` for `undefined`. -/
def csvCell (value : Option JValue) : String :=
  match value with
  | none => ""
  | some v =>
    match v with
    | .null => ""
    | .arr elems => jsonStringify (.arr elems)
    | .obj fields => jsonStringify (.obj fields)
    | .str s =>
      if jsIncludesComma s then "\"" ++ jsDoubleQuotes s ++ "\"" else s
    | v => jsToString v

/-- `convertToCSV`: header row then one row per document, joined by newlines;
empty input gives the empty string. -/
def convertToCSV (data : List Doc) : String :=
  if data.length = 0 then ""
  else
    let headers := csvHeaders data
    let csvRows :=
      String.intercalate "," headers ::
        data.map (fun doc =>
          String.intercalate "," (headers.map (fun h => csvCell (docGet doc h))))
    String.intercalate "\n" csvRows

/-! ## `buildReferenceExpansion` (source lines 147–164) -/

/-- The `expansion` template literal of lines 150–157 (exact text, with
literal braces). -/
def relationExpansionFragment : String :=
  "\n      \"references\": *[references(^._id)] \x7b\n        _id,\n        _type,\n        title,\n        name,\n        slug\n      \x7d"

/-- `buildReferenceExpansion(depth)`: empty for `depth ≤ 0`, the fragment at
depth 1, fragment + comma + recursion above 1. -/
def buildReferenceExpansion (depth : Int) : String :=
  if depth ≤ 0 then ""
  else if depth > 1 then
    relationExpansionFragment ++ "," ++ buildReferenceExpansion (depth - 1)
  else relationExpansionFragment
termination_by depth.toNat
decreasing_by omega

/-- Occurrences of the caret character, which appears exactly once in
`relationExpansionFragment` (inside `references(^._id)`) and nowhere else in
the expansion output: the countable marker of one relation fragment. -/
def caretCount (s : String) : Nat := s.data.count '^'

/-! ## `buildExportQuery` (source lines 101–142) and the export state -/

/-- Output format selector (`'json' | 'csv'`). -/
inductive ExportFormat where
  | json
  | csv
deriving Repr, DecidableEq

/-- The string value of the format selector. -/
def ExportFormat.tag : ExportFormat → String
  | .json => "json"
  | .csv => "csv"

/-- The component state read by `buildExportQuery` and `handleExport`
(the `useState` fields of `ExportData`). -/
structure ExportState where
  selectedTypes : List String
  useCustomQuery : Bool
  customQuery : String
  dateFilter : String
  fieldFilter : String
  maxDocuments : Nat
  includeRefs : Bool
  refDepth : Int
  exportFormat : ExportFormat
  filename : String
deriving Repr, DecidableEq

/-- `buildExportQuery` (lines 101–142): custom-query override, else the three
conditions pushed in order, joined with `&&`, the `[0...maxDocuments]` range,
and the optional reference-expansion projection. -/
def buildExportQuery (st : ExportState) : String :=
  if st.useCustomQuery ∧ jsTrim st.customQuery ≠ "" then
    st.customQuery
  else
    let conditions : List String :=
      (if st.selectedTypes.length > 0 then
        ["_type in [" ++
          String.intercalate ", " (st.selectedTypes.map (fun t => "\"" ++ t ++ "\"")) ++ "]"]
      else []) ++
      (if jsTrim st.dateFilter ≠ "" then
        ["dateTime(_createdAt) >= dateTime(\"" ++ st.dateFilter ++ "\")"]
      else []) ++
      (if jsTrim st.fieldFilter ≠ "" then
        let fields := ((jsSplitComma st.fieldFilter).map jsTrim).filter (fun f => f ≠ "")
        if fields.length > 0 then
          ["(" ++ String.intercalate " || " (fields.map (fun f => "defined(" ++ f ++ ")")) ++ ")"]
        else []
      else [])
    let query :=
      "*[" ++ (if conditions.length > 0 then String.intercalate " && " conditions else "") ++
        ("][0..." ++ toString st.maxDocuments ++ "]")
    if st.includeRefs ∧ st.refDepth > 0 then
      query ++
        (" \x7b\n        ...,\n        " ++ buildReferenceExpansion st.refDepth ++ "\n      \x7d")
    else query

/-! ## `handleExport` (source lines 219–290)

The fetch capability (`client.fetch`) and the download step (`downloadFile`,
which touches the DOM and may throw) are injected as explicit parameters;
`Except.error msg` models a thrown `Error` carrying `msg` as its `.message`.
`today` stands for `new Date().toISOString().split('T')[0]`. -/

/-- The argument of the `onComplete` callback. -/
structure ExportResultR where
  exported : Nat
  format : String
  filename : String
deriving Repr, DecidableEq

/-- Terminal condition of a run, in the spec's phase vocabulary: `idle` when
the entry guard rejects, `error` when a failure was caught, `complete`
otherwise (the empty-result early return is a successful, non-error end). -/
inductive Phase where
  | idle
  | complete
  | error
deriving Repr, DecidableEq

/-- Observable outcome of one `handleExport` run.  `progress` is the
steady-state value: the `finally` block schedules `setExportProgress(0)`
on every path that entered the `try`, and the validation return leaves the
initial `0` untouched, so it is `0` in every terminal state. -/
structure RunResult where
  phase : Phase
  message : String
  exportCount : Nat
  progress : Nat
  fetchedQueries : List String
  emitted : List (String × String × String)
  completeCalls : List ExportResultR
  errorCalls : List String
deriving Repr, DecidableEq

/-- One run of `handleExport`.  Control flow follows the source exactly:
entry guard (lines 220–223), fetch (line 236), empty-result early return
(lines 240–243), filename resolution (lines 248–265), download (line 270),
success reporting (lines 272–279), catch block (lines 281–285). -/
def handleExport (st : ExportState) (today : String)
    (fetch : String → Except String (List Doc))
    (download : Except String Unit) : RunResult :=
  if st.selectedTypes.length = 0 ∧ st.useCustomQuery = false then
    { phase := .idle
      message := "Please select at least one document type or use a custom query"
      exportCount := 0
      progress := 0
      fetchedQueries := []
      emitted := []
      completeCalls := []
      errorCalls := [] }
  else
    let query := buildExportQuery st
    match fetch query with
    | .error msg =>
      { phase := .error
        message := "Export error: " ++ msg
        exportCount := 0
        progress := 0
        fetchedQueries := [query]
        emitted := []
        completeCalls := []
        errorCalls := [msg] }
    | .ok documents =>
      if documents.length = 0 then
        { phase := .complete
          message := "No documents found matching the criteria"
          exportCount := 0
          progress := 0
          fetchedQueries := [query]
          emitted := []
          completeCalls := []
          errorCalls := [] }
      else
        let typeString :=
          if st.selectedTypes.length > 0 then String.intercalate "-" st.selectedTypes
          else "custom"
        let generatedFilename :=
          if jsTrim st.filename ≠ "" then jsTrim st.filename
          else "sanity-export-" ++ typeString ++ "-" ++ today
        let content :=
          match st.exportFormat with
          | .csv => convertToCSV documents
          | .json => jsonStringifyDocs documents
        let mimeType :=
          match st.exportFormat with
          | .csv => "text/csv"
          | .json => "application/json"
        let finalFilename :=
          match st.exportFormat with
          | .csv => generatedFilename ++ ".csv"
          | .json => generatedFilename ++ ".json"
        match download with
        | .error msg =>
          { phase := .error
            message := "Export error: " ++ msg
            exportCount := documents.length
            progress := 0
            fetchedQueries := [query]
            emitted := []
            completeCalls := []
            errorCalls := [msg] }
        | .ok _ =>
          { phase := .complete
            message := "Successfully exported " ++ toString documents.length ++
              " documents as " ++ finalFilename
            exportCount := documents.length
            progress := 0
            fetchedQueries := [query]
            emitted := [(content, finalFilename, mimeType)]
            completeCalls :=
              [{ exported := documents.length
                 format := st.exportFormat.tag
                 filename := finalFilename }]
            errorCalls := [] }

/-! ## Spec-side reference definitions

These follow the specification's wording (amended where the code differs)
and are compared against the source-derived functions above. -/

/-- Spec wording (amended per the code): a field value is non-nested when it
is neither an object nor an array; `null` and scalars are includable. -/
def nonNested : JValue → Bool
  | .obj _ => false
  | .arr _ => false
  | .null => true
  | .str _ => true
  | .num _ => true
  | .bool _ => true

/-- Insert a key unless already present (first-seen order preserved). -/
def insertFirstSeen (acc : List String) (k : String) : List String :=
  if acc.contains k then acc else acc ++ [k]

/-- First-seen deduplication of a key list. -/
def dedupFirstSeen (keys : List String) : List String :=
  keys.foldl insertFirstSeen []

/-- Spec-side header set: union over all records of the names of non-nested
fields, in first-seen discovery order. -/
def specHeaders (data : List Doc) : List String :=
  dedupFirstSeen ((data.flatMap (fun doc => doc.filter (fun kv => nonNested kv.2))).map
    (fun kv => kv.1))

/-- Spec-side condition (a): type membership, only if the type set is
non-empty. -/
def typeCondition (st : ExportState) : Option String :=
  if st.selectedTypes.length > 0 then
    some ("_type in [" ++
      String.intercalate ", " (st.selectedTypes.map (fun t => "\"" ++ t ++ "\"")) ++ "]")
  else none

/-- Spec-side condition (b): creation-timestamp lower bound, only if the
date filter is non-blank. -/
def dateCondition (st : ExportState) : Option String :=
  if jsTrim st.dateFilter ≠ "" then
    some ("dateTime(_createdAt) >= dateTime(\"" ++ st.dateFilter ++ "\")")
  else none

/-- The comma-split, trimmed, non-empty required-field names. -/
def requiredFields (st : ExportState) : List String :=
  ((jsSplitComma st.fieldFilter).map jsTrim).filter (fun f => f ≠ "")

/-- Spec-side condition (c): an OR of `defined(field)` predicates, only if
the required-field list is non-empty. -/
def fieldCondition (st : ExportState) : Option String :=
  if requiredFields st ≠ [] then
    some ("(" ++
      String.intercalate " || " ((requiredFields st).map (fun f => "defined(" ++ f ++ ")")) ++
      ")")
  else none

/-- Spec-side reference-expansion projection suffix (empty when expansion is
off or depth ≤ 0). -/
def refSuffix (st : ExportState) : String :=
  if st.includeRefs ∧ st.refDepth > 0 then
    " \x7b\n        ...,\n        " ++ buildReferenceExpansion st.refDepth ++ "\n      \x7d"
  else ""

/-- Spec-side (amended) resolved output name: the trimmed user-supplied name
when non-blank, otherwise `sanity-export-<types-joined-by-dash>-<date>` with
the placeholder `custom` when no types are selected; plus the format
extension. -/
def resolvedFilename (st : ExportState) (today : String) : String :=
  let base :=
    if jsTrim st.filename ≠ "" then jsTrim st.filename
    else
      "sanity-export-" ++
        (if st.selectedTypes ≠ [] then String.intercalate "-" st.selectedTypes else "custom") ++
        "-" ++ today
  base ++ (match st.exportFormat with | .csv => ".csv" | .json => ".json")

/-- The comma-escaping rule: wrap in double quotes, double internal quotes. -/
def csvEscape (s : String) : String := "\"" ++ jsDoubleQuotes s ++ "\""

/-- Spec-side plain rendering of a cell with no escaping applied: empty for
absent/`null`, inline JSON serialization for nested structures, plain text
for scalars. -/
def rawCell (value : Option JValue) : String :=
  match value with
  | none => ""
  | some .null => ""
  | some (.arr elems) => jsonStringify (.arr elems)
  | some (.obj fields) => jsonStringify (.obj fields)
  | some (.str s) => s
  | some (.num n) => toString n
  | some (.bool true) => "true"
  | some (.bool false) => "false"

/-! ## Concrete fixtures for witnesses and counterexamples -/

/-- Record `a` of spec Scenario 3. -/
def docA : Doc :=
  [("_id", .str "a"), ("_type", .str "post"), ("title", .str "Hi")]

/-- Record `b` of spec Scenario 3. -/
def docB : Doc :=
  [("_id", .str "b"), ("_type", .str "post"), ("tags", .arr [.str "x"])]

/-- A single fetched document for success-path runs. -/
def docX : Doc := [("_id", .str "x"), ("_type", .str "post")]

/-- A plain state: one selected type, no custom query, defaults otherwise. -/
def stPost : ExportState :=
  { selectedTypes := ["post"]
    useCustomQuery := false
    customQuery := ""
    dateFilter := ""
    fieldFilter := ""
    maxDocuments := 1000
    includeRefs := false
    refDepth := 2
    exportFormat := .json
    filename := "" }

/-- A custom-query state that still has a type selected. -/
def stCustomWithType : ExportState :=
  { stPost with useCustomQuery := true, customQuery := "*[]", maxDocuments := 5 }

/-- A state violating the entry guard (no types, custom query off). -/
def stEmptySelection : ExportState :=
  { stPost with selectedTypes := [] }

/-- Spec Scenario 2: two types and a date filter. -/
def stScenario2 : ExportState :=
  { stPost with selectedTypes := ["post", "page"], dateFilter := "2023-01-01" }

/-! ## Helper lemmas -/

/-- If trimming leaves nothing, every character was whitespace. -/
theorem all_whitespace_of_trimChars_nil (l : List Char) (h : trimChars l = []) :
    ∀ c ∈ l, c.isWhitespace := by
  unfold trimChars at h
  rw [List.reverse_eq_nil_iff, List.dropWhile_eq_nil_iff] at h
  intro c hc
  rw [← List.takeWhile_append_dropWhile (p := Char.isWhitespace) (l := l),
    List.mem_append] at hc
  rcases hc with hc | hc
  · exact List.mem_takeWhile_imp hc
  · exact h c (List.mem_reverse.mpr hc)

/-- Splitting a comma-free character list returns a single piece. -/
theorem splitCommaAux_of_no_comma (l : List Char) (acc : List Char) (h : ',' ∉ l) :
    splitCommaAux l acc = [acc.reverse ++ l] := by
  induction l generalizing acc with
  | nil => simp [splitCommaAux]
  | cons c rest ih =>
    have hc : ¬(c = ',') := fun hcc => h (hcc ▸ List.mem_cons_self c rest)
    have hrest : ',' ∉ rest := fun hm => h (List.mem_cons_of_mem c hm)
    simp only [splitCommaAux, if_neg hc, ih _ hrest, List.reverse_cons, List.append_assoc,
      List.singleton_append]

/-- A blank required-field input produces an empty field list. -/
theorem fields_nil_of_trim_empty (s : String) (h : jsTrim s = "") :
    ((jsSplitComma s).map jsTrim).filter (fun f => f ≠ "") = [] := by
  have hdata : trimChars s.data = [] := by
    have := congrArg String.data h
    simpa [jsTrim] using this
  have hws : ∀ c ∈ s.data, c.isWhitespace := all_whitespace_of_trimChars_nil s.data hdata
  have hnc : ',' ∉ s.data := by
    intro hm
    have := hws ',' hm
    simp at this
  unfold jsSplitComma
  rw [splitCommaAux_of_no_comma s.data [] hnc]
  have hmk : List.map String.mk [List.reverse ([] : List Char) ++ s.data] = [s] := rfl
  rw [hmk]
  simp [h]

/-- Caret occurrences add over string concatenation. -/
theorem caretCount_append (a b : String) :
    caretCount (a ++ b) = caretCount a + caretCount b := by
  simp [caretCount, String.data_append, List.count_append]

/-- The relation fragment carries exactly one caret marker. -/
theorem caretCount_fragment : caretCount relationExpansionFragment = 1 := rfl

/-- The comma separator carries no caret marker. -/
theorem caretCount_comma : caretCount "," = 0 := rfl

/-- Base case of the expansion: nonpositive depth gives the empty string. -/
theorem buildReferenceExpansion_nonpos (d : Int) (h : d ≤ 0) :
    buildReferenceExpansion d = "" := by
  rw [buildReferenceExpansion]
  simp [h]

/-- Depth one gives the bare fragment. -/
theorem buildReferenceExpansion_one : buildReferenceExpansion 1 = relationExpansionFragment := by
  rw [buildReferenceExpansion]
  norm_num

/-- Recursive case: depth above one prepends fragment and comma. -/
theorem buildReferenceExpansion_step (d : Int) (h : 1 < d) :
    buildReferenceExpansion d =
      relationExpansionFragment ++ "," ++ buildReferenceExpansion (d - 1) := by
  conv_lhs => rw [buildReferenceExpansion]
  rw [if_neg (by omega), if_pos (by omega)]

/-- The expansion at depth `d ≥ 0` contains exactly `d` caret markers. -/
theorem caretCount_expansion (d : Int) (h : 0 ≤ d) :
    caretCount (buildReferenceExpansion d) = d.toNat := by
  refine @Int.le_induction (fun k => caretCount (buildReferenceExpansion k) = k.toNat) 0 ?_ ?_ d h
  · show caretCount (buildReferenceExpansion 0) = (0 : Int).toNat
    rw [buildReferenceExpansion_nonpos 0 le_rfl]; rfl
  · intro n hn ih
    show caretCount (buildReferenceExpansion (n + 1)) = (n + 1 : Int).toNat
    rcases eq_or_lt_of_le hn with h0 | h0
    · rw [← h0]
      have h01 : (0 : Int) + 1 = 1 := by omega
      rw [h01, buildReferenceExpansion_one]
      rfl
    · have h1 : 1 < n + 1 := by omega
      rw [buildReferenceExpansion_step _ h1, caretCount_append, caretCount_append,
        caretCount_fragment, caretCount_comma]
      have h2 : n + 1 - 1 = n := by omega
      rw [h2, ih]
      omega

/-- The code's header test agrees with the spec-side non-nested test. -/
theorem headerIncludable_eq_nonNested (v : JValue) : headerIncludable v = nonNested v := by
  cases v <;> rfl

/-- Unfolding one step of `addKeys`. -/
theorem addKeys_cons (acc : List String) (kv : String × JValue) (rest : Doc) :
    addKeys acc (kv :: rest) =
      addKeys (if headerIncludable kv.2 && !acc.contains kv.1 then acc ++ [kv.1] else acc)
        rest := rfl

/-- The code's guarded push equals a first-seen insertion when includable. -/
theorem addKeys_step_eq (acc : List String) (kv : String × JValue) :
    (if headerIncludable kv.2 && !acc.contains kv.1 then acc ++ [kv.1] else acc) =
      if headerIncludable kv.2 then insertFirstSeen acc kv.1 else acc := by
  unfold insertFirstSeen
  by_cases h1 : headerIncludable kv.2 <;> by_cases h2 : acc.contains kv.1 <;>
    simp [h1, h2]

/-- One document's pass of header collection is a fold of first-seen
insertions over its includable keys. -/
theorem addKeys_eq_foldl (doc : Doc) (acc : List String) :
    addKeys acc doc =
      ((doc.filter (fun kv => headerIncludable kv.2)).map (fun kv => kv.1)).foldl
        insertFirstSeen acc := by
  induction doc generalizing acc with
  | nil => rfl
  | cons kv rest ih =>
    rw [addKeys_cons, addKeys_step_eq]
    by_cases h : headerIncludable kv.2
    · rw [if_pos h, ih]
      simp [List.filter_cons, h]
    · rw [if_neg h, ih]
      simp [List.filter_cons, h]

/-- The collected header list equals the spec-side header set. -/
theorem csvHeaders_eq_specHeaders (data : List Doc) : csvHeaders data = specHeaders data := by
  have hpred : (fun kv : String × JValue => headerIncludable kv.2) =
      (fun kv : String × JValue => nonNested kv.2) := by
    funext kv
    rw [headerIncludable_eq_nonNested]
  have key : ∀ acc : List String, data.foldl addKeys acc =
      ((data.flatMap (fun doc => doc.filter (fun kv => headerIncludable kv.2))).map
        (fun kv => kv.1)).foldl insertFirstSeen acc := by
    induction data with
    | nil => intro acc; rfl
    | cons d rest ih =>
      intro acc
      rw [List.foldl_cons, List.flatMap_cons, List.map_append, List.foldl_append,
        addKeys_eq_foldl, ih]
  unfold csvHeaders specHeaders dedupFirstSeen
  rw [key, hpred]

/-- The guard on the joined conditions is redundant: joining the empty list
already gives the empty string. -/
theorem intercalate_if_length (s : String) (l : List String) :
    (if l.length > 0 then String.intercalate s l else "") = String.intercalate s l := by
  cases l with
  | nil => rfl
  | cons a t => rw [if_pos (by simp)]

/-- The three condition pushes of `buildExportQuery` produce exactly the
optional conditions of the spec, in order. -/
theorem conditionsList_eq (st : ExportState) :
    ((if st.selectedTypes.length > 0 then
        ["_type in [" ++
          String.intercalate ", " (st.selectedTypes.map (fun t => "\"" ++ t ++ "\"")) ++ "]"]
      else []) ++
      (if jsTrim st.dateFilter ≠ "" then
        ["dateTime(_createdAt) >= dateTime(\"" ++ st.dateFilter ++ "\")"]
      else []) ++
      (if jsTrim st.fieldFilter ≠ "" then
        (if (((jsSplitComma st.fieldFilter).map jsTrim).filter (fun f => f ≠ "")).length > 0 then
          ["(" ++ String.intercalate " || "
              ((((jsSplitComma st.fieldFilter).map jsTrim).filter (fun f => f ≠ "")).map
                (fun f => "defined(" ++ f ++ ")")) ++ ")"]
        else [])
      else [])) =
    (typeCondition st).toList ++ (dateCondition st).toList ++ (fieldCondition st).toList := by
  unfold typeCondition dateCondition fieldCondition requiredFields
  by_cases h3 : jsTrim st.fieldFilter ≠ ""
  · by_cases h1 : st.selectedTypes = [] <;> by_cases h2 : jsTrim st.dateFilter = "" <;>
      by_cases h5 :
        (((jsSplitComma st.fieldFilter).map jsTrim).filter (fun f => f ≠ "")).length > 0 <;>
      simp_all [List.length_pos]
  · have hnil := fields_nil_of_trim_empty st.fieldFilter (not_not.mp h3)
    by_cases h1 : st.selectedTypes = [] <;> by_cases h2 : jsTrim st.dateFilter = "" <;>
      simp_all [List.length_pos]

/-- On the non-custom path, the built query is the AND-composition of the
three optional conditions, the range clause, and the expansion suffix. -/
theorem buildExportQuery_eq_composition (st : ExportState)
    (h : ¬(st.useCustomQuery = true ∧ jsTrim st.customQuery ≠ "")) :
    buildExportQuery st =
      "*[" ++ String.intercalate " && "
          ((typeCondition st).toList ++ (dateCondition st).toList ++
            (fieldCondition st).toList) ++
        ("][0..." ++ toString st.maxDocuments ++ "]") ++ refSuffix st := by
  unfold buildExportQuery
  rw [if_neg h]
  simp only [intercalate_if_length]
  rw [conditionsList_eq st]
  unfold refSuffix
  by_cases h4 : st.includeRefs ∧ st.refDepth > 0
  · rw [if_pos h4, if_pos h4]
  · rw [if_neg h4, if_neg h4, String.append_empty]

/-! ## Claim theorems -/

/-- Claim C1 (amended): when the injected fetch capability returns an empty
record list, the run ends in the non-error terminal state with the
informational "no documents found" message, the exported count recorded as
zero, no emission, and NEITHER callback invoked (the source returns early at
lines 240–243 without calling `onComplete`). -/
theorem c1_emptyResult (st : ExportState) (today : String)
    (fetch : String → Except String (List Doc)) (download : Except String Unit)
    (hv : ¬(st.selectedTypes.length = 0 ∧ st.useCustomQuery = false))
    (hf : fetch (buildExportQuery st) = Except.ok []) :
    handleExport st today fetch download =
      { phase := .complete
        message := "No documents found matching the criteria"
        exportCount := 0
        progress := 0
        fetchedQueries := [buildExportQuery st]
        emitted := []
        completeCalls := []
        errorCalls := [] } := by
  unfold handleExport
  rw [if_neg hv]
  simp [hf]

/-- Claim C1 counterexample: on an empty fetch result the completion callback
is NOT invoked (zero invocations), refuting "the completion callback is
invoked exactly once with an exported count of zero". -/
theorem c1_emptyResult_counterexample :
    (handleExport stPost "2024-01-02" (fun _ => Except.ok []) (Except.ok ())).completeCalls =
      [] := by decide

/-- Claim C1 witness: the amended theorem at a concrete run. -/
theorem c1_emptyResult_witness :
    handleExport stPost "2024-01-02" (fun _ => Except.ok []) (Except.ok ()) =
      { phase := .complete
        message := "No documents found matching the criteria"
        exportCount := 0
        progress := 0
        fetchedQueries := [buildExportQuery stPost]
        emitted := []
        completeCalls := []
        errorCalls := [] } :=
  c1_emptyResult stPost "2024-01-02" (fun _ => Except.ok []) (Except.ok ()) (by decide) rfl

/-- Claim C2 (amended): the tabular header row is the union, over all
records, of top-level field names whose value in at least one record is
neither a nested object NOR an array (`null` and scalars are includable;
arrays are excluded because JS `typeof` classes them as objects), in
first-seen order; the Scenario 3 records therefore yield the header
`_id,_type,title` (no `tags` column) with an empty `title` cell for `b`. -/
theorem c2_tabularHeaders :
    (∀ data : List Doc, csvHeaders data = specHeaders data) ∧
    convertToCSV [docA, docB] = "_id,_type,title\na,post,Hi\nb,post," :=
  ⟨csvHeaders_eq_specHeaders, by rfl⟩

/-- Claim C2 counterexample: the Scenario 3 records do NOT yield the header
`_id,_type,title,tags` claimed by the spec — `tags` holds an array in every
record, so the code never includes it. -/
theorem c2_tabularHeaders_counterexample :
    csvHeaders [docA, docB] ≠ ["_id", "_type", "title", "tags"] := by decide

/-- Claim C3 (amended): the trailing range clause `[0...maxDocuments]` is
present on every run in which the custom-query override is not active; when
the override is active the custom query is returned verbatim with NO range
clause appended, so `maxDocuments` does not bound custom-query runs. -/
theorem c3_rangeClause (st : ExportState) :
    (¬(st.useCustomQuery = true ∧ jsTrim st.customQuery ≠ "") →
      ∃ conds : String, buildExportQuery st =
        "*[" ++ conds ++ ("][0..." ++ toString st.maxDocuments ++ "]") ++ refSuffix st) ∧
    (st.useCustomQuery = true → jsTrim st.customQuery ≠ "" →
      buildExportQuery st = st.customQuery) := by
  constructor
  · intro h
    exact ⟨_, buildExportQuery_eq_composition st h⟩
  · intro h1 h2
    unfold buildExportQuery
    rw [if_pos ⟨h1, h2⟩]

/-- Claim C3 counterexample: with the custom-query override active and
`maxDocuments = 5`, the built query is `*[]` and contains no `[0...5]`
range clause, refuting "a trailing range clause ... is always present,
including in the custom-query path". -/
theorem c3_rangeClause_counterexample :
    buildExportQuery stCustomWithType = "*[]" ∧
    strContainsSub (buildExportQuery stCustomWithType) "[0...5]" = false := by
  constructor
  · decide
  · decide

/-- Claim C3 witness: both branches of the amended theorem at concrete
states. -/
theorem c3_rangeClause_witness :
    (∃ conds : String, buildExportQuery stPost =
      "*[" ++ conds ++ ("][0..." ++ toString stPost.maxDocuments ++ "]") ++ refSuffix stPost) ∧
    buildExportQuery stCustomWithType = stCustomWithType.customQuery :=
  ⟨(c3_rangeClause stPost).1 (by decide),
   (c3_rangeClause stCustomWithType).2 rfl (by decide)⟩

/-- Claim C4: with the custom-query flag set and a non-blank custom query,
`buildExportQuery` returns the custom query string unchanged; no other field
of the state can affect the result. -/
theorem c4_customQuery_verbatim (st : ExportState)
    (h1 : st.useCustomQuery = true) (h2 : jsTrim st.customQuery ≠ "") :
    buildExportQuery st = st.customQuery := by
  unfold buildExportQuery
  rw [if_pos ⟨h1, h2⟩]

/-- Claim C4 witness: the override at a concrete state. -/
theorem c4_customQuery_verbatim_witness :
    buildExportQuery stCustomWithType = "*[]" :=
  c4_customQuery_verbatim stCustomWithType rfl (by decide)

/-- Claim C5 (amended): on every successful run the reported output name is
the TRIMMED user-supplied name plus the format extension when non-blank, and
otherwise `sanity-export-<types-joined-by-dash>-<date>.<ext>`, where the
placeholder `custom` is used exactly when NO types are selected (not
whenever a custom query was used). -/
theorem c5_resolvedFilename (st : ExportState) (today : String)
    (fetch : String → Except String (List Doc)) (docs : List Doc)
    (hv : ¬(st.selectedTypes.length = 0 ∧ st.useCustomQuery = false))
    (hf : fetch (buildExportQuery st) = Except.ok docs) (hne : docs ≠ []) :
    (handleExport st today fetch (Except.ok ())).completeCalls =
      [{ exported := docs.length
         format := st.exportFormat.tag
         filename := resolvedFilename st today }] := by
  unfold handleExport
  rw [if_neg hv]
  simp [hf, hne]
  unfold resolvedFilename
  by_cases h1 : jsTrim st.filename ≠ "" <;> by_cases h2 : st.selectedTypes = [] <;>
    cases st.exportFormat <;> simp_all [List.length_pos, ExportFormat.tag]

/-- Claim C5 counterexample: a custom-query run with a type still selected
names the file with the joined type tags (`post`), not the `custom`
placeholder, refuting "the type-tags segment is a fixed placeholder whenever
a custom query was used". -/
theorem c5_resolvedFilename_counterexample :
    (handleExport stCustomWithType "2024-01-02" (fun _ => Except.ok [docX])
        (Except.ok ())).completeCalls =
      [{ exported := 1, format := "json", filename := "sanity-export-post-2024-01-02.json" }] ∧
    "sanity-export-post-2024-01-02.json" ≠ "sanity-export-custom-2024-01-02.json" := by
  constructor
  · decide
  · decide

/-- Claim C5 witness: the amended naming theorem at a concrete run. -/
theorem c5_resolvedFilename_witness :
    (handleExport stCustomWithType "2024-01-02" (fun _ => Except.ok [docX])
        (Except.ok ())).completeCalls =
      [{ exported := 1
         format := "json"
         filename := resolvedFilename stCustomWithType "2024-01-02" }] ∧
    resolvedFilename stCustomWithType "2024-01-02" = "sanity-export-post-2024-01-02.json" :=
  ⟨c5_resolvedFilename stCustomWithType "2024-01-02" (fun _ => Except.ok [docX]) [docX]
      (by decide) rfl (by simp),
   by decide⟩

/-- Claim C6: with no selected types and the custom-query flag off, the run
stays in `idle` with only the local validation message: no fetch, no
emission, and neither callback invoked. -/
theorem c6_validationGuard (st : ExportState) (today : String)
    (fetch : String → Except String (List Doc)) (download : Except String Unit)
    (h1 : st.selectedTypes = []) (h2 : st.useCustomQuery = false) :
    handleExport st today fetch download =
      { phase := .idle
        message := "Please select at least one document type or use a custom query"
        exportCount := 0
        progress := 0
        fetchedQueries := []
        emitted := []
        completeCalls := []
        errorCalls := [] } := by
  unfold handleExport
  rw [if_pos ⟨by rw [h1]; rfl, h2⟩]

/-- Claim C6 witness: the validation guard at a concrete state. -/
theorem c6_validationGuard_witness :
    handleExport stEmptySelection "2024-01-02" (fun _ => Except.ok [docX]) (Except.ok ()) =
      { phase := .idle
        message := "Please select at least one document type or use a custom query"
        exportCount := 0
        progress := 0
        fetchedQueries := []
        emitted := []
        completeCalls := []
        errorCalls := [] } :=
  c6_validationGuard stEmptySelection "2024-01-02" (fun _ => Except.ok [docX]) (Except.ok ())
    rfl rfl

/-- Claim C7: when the custom-query override is not active, the built query
is the AND-composition, in fixed order, of the optional type-membership,
date lower-bound, and field-presence (OR of `defined(...)`) conditions,
followed by the range clause and expansion suffix; with no conditions the
query selects all records (`*[]` prefix). -/
theorem c7_conditionComposition (st : ExportState)
    (h : ¬(st.useCustomQuery = true ∧ jsTrim st.customQuery ≠ "")) :
    buildExportQuery st =
      "*[" ++ String.intercalate " && "
          ((typeCondition st).toList ++ (dateCondition st).toList ++
            (fieldCondition st).toList) ++
        ("][0..." ++ toString st.maxDocuments ++ "]") ++ refSuffix st ∧
    (typeCondition st = none → dateCondition st = none → fieldCondition st = none →
      buildExportQuery st =
        "*[]" ++ ("[0..." ++ toString st.maxDocuments ++ "]") ++ refSuffix st) := by
  refine ⟨buildExportQuery_eq_composition st h, ?_⟩
  intro ht hd hfc
  rw [buildExportQuery_eq_composition st h, ht, hd, hfc]
  have h0 : String.intercalate " && "
      ((none : Option String).toList ++ (none : Option String).toList ++
        (none : Option String).toList) = "" := rfl
  rw [h0, String.append_empty]
  have h1 : ("][0..." : String) = "]" ++ "[0..." := rfl
  rw [h1]
  exact rfl

/-- Claim C7 witness: the composition at spec Scenario 2, with the resulting
query evaluated. -/
theorem c7_conditionComposition_witness :
    buildExportQuery stScenario2 =
      "*[" ++ String.intercalate " && "
          ((typeCondition stScenario2).toList ++ (dateCondition stScenario2).toList ++
            (fieldCondition stScenario2).toList) ++
        ("][0..." ++ toString stScenario2.maxDocuments ++ "]") ++ refSuffix stScenario2 ∧
    buildExportQuery stScenario2 =
      "*[_type in [\"post\", \"page\"] && dateTime(_createdAt) >= dateTime(\"2023-01-01\")][0...1000]" :=
  ⟨(c7_conditionComposition stScenario2 (by decide)).1, by decide⟩

/-- Claim C8: the relation expansion is empty for depth ≤ 0, contains
exactly `d` relation-fragment markers for depth `d ≥ 0` (the caret of
`references(^._id)` occurs once per fragment and nowhere else), and for
`d > 1` equals the fragment, a comma, and the expansion at `d − 1`. -/
theorem c8_relationExpansion (d : Int) :
    (d ≤ 0 → buildReferenceExpansion d = "") ∧
    (0 ≤ d → (caretCount (buildReferenceExpansion d) : Int) = d) ∧
    (1 < d → buildReferenceExpansion d =
      relationExpansionFragment ++ "," ++ buildReferenceExpansion (d - 1)) ∧
    caretCount relationExpansionFragment = 1 := by
  refine ⟨buildReferenceExpansion_nonpos d, ?_, buildReferenceExpansion_step d,
    caretCount_fragment⟩
  intro hd
  rw [caretCount_expansion d hd]
  omega

/-- Claim C8 witness: the three clauses at depths 0, 2 and 2. -/
theorem c8_relationExpansion_witness :
    buildReferenceExpansion 0 = "" ∧
    (caretCount (buildReferenceExpansion 2) : Int) = 2 ∧
    buildReferenceExpansion 2 = relationExpansionFragment ++ "," ++ buildReferenceExpansion 1 :=
  ⟨(c8_relationExpansion 0).1 le_rfl,
   (c8_relationExpansion 2).2.1 (by norm_num),
   by
     have h := (c8_relationExpansion 2).2.2.1 (by norm_num)
     norm_num at h
     exact h⟩

/-- Claim C9: past the entry guard, a failure of the injected fetch
capability, or of the download step after a non-empty fetch, is caught
inside the run: the terminal state is `error`, the error callback receives
the message, the status message is set, nothing is completed or emitted,
and progress ends reset. -/
theorem c9_failuresCaught (st : ExportState) (today : String)
    (fetch : String → Except String (List Doc)) (download : Except String Unit)
    (hv : ¬(st.selectedTypes.length = 0 ∧ st.useCustomQuery = false)) :
    (∀ msg, fetch (buildExportQuery st) = Except.error msg →
      handleExport st today fetch download =
        { phase := .error
          message := "Export error: " ++ msg
          exportCount := 0
          progress := 0
          fetchedQueries := [buildExportQuery st]
          emitted := []
          completeCalls := []
          errorCalls := [msg] }) ∧
    (∀ msg docs, fetch (buildExportQuery st) = Except.ok docs → docs ≠ [] →
      download = Except.error msg →
      (handleExport st today fetch download).phase = .error ∧
      (handleExport st today fetch download).errorCalls = [msg] ∧
      (handleExport st today fetch download).message = "Export error: " ++ msg ∧
      (handleExport st today fetch download).completeCalls = [] ∧
      (handleExport st today fetch download).emitted = [] ∧
      (handleExport st today fetch download).progress = 0) := by
  constructor
  · intro msg hf
    unfold handleExport
    rw [if_neg hv]
    simp [hf]
  · intro msg docs hf hne hd
    unfold handleExport
    rw [if_neg hv]
    simp [hf, hd, hne]

/-- Claim C9 witness: a failing fetch at a concrete run. -/
theorem c9_failuresCaught_witness :
    handleExport stPost "2024-01-02" (fun _ => Except.error "boom") (Except.ok ()) =
      { phase := .error
        message := "Export error: boom"
        exportCount := 0
        progress := 0
        fetchedQueries := [buildExportQuery stPost]
        emitted := []
        completeCalls := []
        errorCalls := ["boom"] } :=
  (c9_failuresCaught stPost "2024-01-02" (fun _ => Except.error "boom") (Except.ok ())
    (by decide)).1 "boom" rfl

/-- Claim C10: the comma-escaping rule (quote-wrap, double internal quotes)
is applied exactly to string values containing a comma; every other cell —
including the inline JSON serialization of nested structures, however many
commas or quotes it contains, and non-string scalars — is emitted as-is. -/
theorem c10_csvCell_escaping (value : Option JValue) :
    csvCell value =
      match value with
      | some (JValue.str s) => if jsIncludesComma s then csvEscape s else rawCell value
      | _ => rawCell value := by
  rcases value with _ | v
  · rfl
  · cases v with
    | null => rfl
    | str s => by_cases hc : jsIncludesComma s <;> simp [csvCell, csvEscape, rawCell, hc]
    | num n => rfl
    | bool b => cases b <;> rfl
    | arr es => rfl
    | obj fs => rfl

